import Mathlib

/-
Verification of the Nebula Pad Home Assistant integration
(custom_components/nebula_pad): a shallow embedding of the pure logic of
helpers.py, coordinator.py, button.py and number.py, with theorems checking
the natural-language specification against that embedding.

Python strings are embedded as `List Char`, dictionaries with string values
as association lists, and the coordinator's receive-loop body as a step
function on an explicit state, returning the log/side-effect trace and
whether the loop continues or exits.
-/

namespace NebulaPad

/-- Python strings are embedded as lists of characters. -/
abbrev Str := List Char

/-- The characters stripped by Python's str.strip(): the full str.isspace()
set — ASCII whitespace, the information separators U+001C-U+001F, NEL U+0085,
NBSP U+00A0, OGHAM SPACE MARK U+1680, the Unicode spaces U+2000-U+200A, the
line and paragraph separators U+2028/U+2029, NARROW NO-BREAK SPACE U+202F,
MEDIUM MATHEMATICAL SPACE U+205F, and IDEOGRAPHIC SPACE U+3000. -/
def isPySpace (c : Char) : Bool :=
  c = ' ' || c = '\t' || c = '\n' || c = '\r' || c = '\x0b' || c = '\x0c'
    || c = '\x1c' || c = '\x1d' || c = '\x1e' || c = '\x1f'
    || c = '\x85' || c = '\xa0' || c = '\u1680'
    || ('\u2000' ≤ c && c ≤ '\u200a')
    || c = '\u2028' || c = '\u2029' || c = '\u202f' || c = '\u205f' || c = '\u3000'

/-- Embedding of Python's str.strip(): drop whitespace from both ends. -/
def pyStrip (s : Str) : Str :=
  (((s.dropWhile isPySpace).reverse).dropWhile isPySpace).reverse

/-- Characters allowed inside a regex group `[^;]+`: anything but a semicolon. -/
def notSemi (c : Char) : Bool := !(c == ';')

/-- Embedding of `re.search(key + "([^;]+)", s)` from helpers.py: scan left to
right for the first position where the literal `key` occurs followed by at
least one non-semicolon character, and return group(1), the maximal run of
non-semicolon characters after the key.  Positions where the key occurs but
the group would be empty are skipped, exactly as the regex engine backtracks
past them. -/
def reSearchKeyGroup (key : Str) : Str → Option Str
  | [] => none
  | c :: rest =>
    let grp := ((c :: rest).drop key.length).takeWhile notSemi
    if key.isPrefixOf (c :: rest) && !grp.isEmpty then some grp
    else reSearchKeyGroup key rest

/-- The primary version pattern of helpers.parse_version_info. -/
def printerSwKey : Str := "printer sw ver:".toList

/-- The fallback version pattern of helpers.parse_version_info. -/
def dwinSwKey : Str := "DWIN sw ver:".toList

/-- The second half of helpers.parse_version_info: the `DWIN sw ver` fallback
search, returning the stripped group when it is non-blank. -/
def parseDwinFallback (version_string : Str) : Option Str :=
  match reSearchKeyGroup dwinSwKey version_string with
  | some g => if !(pyStrip g).isEmpty then some (pyStrip g) else none
  | none => none

/-- Embedding of helpers.parse_version_info: search for the printer software
version pattern; if found with non-blank stripped group, return it; otherwise
fall back to the DWIN software version pattern; otherwise None. -/
def parse_version_info (version_string : Str) : Option Str :=
  match reSearchKeyGroup printerSwKey version_string with
  | some g =>
    if !(pyStrip g).isEmpty then some (pyStrip g)
    else parseDwinFallback version_string
  | none => parseDwinFallback version_string

/-- A suffix of the input where the version key occurs followed by a nonempty
non-semicolon run: the declarative counterpart of one regex match position. -/
def matchPred (key : Str) (t : Str) : Bool :=
  key.isPrefixOf t && !((t.drop key.length).takeWhile notSemi).isEmpty

/-- The group text captured at a match suffix. -/
def extractGroup (key : Str) (t : Str) : Str :=
  (t.drop key.length).takeWhile notSemi

/-- Declarative version lookup: the first suffix of the string at which `key`
occurs with a nonempty value run determines the version; the version is that
run stripped of surrounding whitespace, and it must be non-blank. -/
def keyedVersion (key : Str) (s : Str) : Option Str :=
  match s.tails.find? (matchPred key) with
  | none => none
  | some t =>
    let v := pyStrip (extractGroup key t)
    if v.isEmpty then none else some v

/-- String-valued Python dictionaries, as association lists. -/
abbrev PyDict := List (Str × Str)

/-- Embedding of dict.get: the value at the first matching key, if any. -/
def dictGet (k : Str) : PyDict → Option Str
  | [] => none
  | (k', v) :: rest => if k' = k then some v else dictGet k rest

/-- The record returned by helpers.get_device_info. -/
structure DeviceInfoRec where
  name : Str
  model : Str
  sw_version : Option Str
  manufacturer : Str
  connections : List (Str × Str)
deriving DecidableEq, Repr

/-- The defaulted device name `f"Nebula Pad {host}"`. -/
def defaultDeviceName (host : Str) : Str := "Nebula Pad ".toList ++ host

/-- Embedding of helpers.get_device_info: model defaults to "Unknown Model";
the name is the reported hostname unless it is missing, empty, or blank after
stripping, in which case it defaults to "Nebula Pad <host>"; the version is
parsed from a truthy modelVersion value; manufacturer is the constant
"Creality"; connections is the singleton ("ip", host). -/
def get_device_info (data : PyDict) (host : Str) : DeviceInfoRec :=
  let model := (dictGet "model".toList data).getD "Unknown Model".toList
  let name :=
    match dictGet "hostname".toList data with
    | none => defaultDeviceName host
    | some h => if h.isEmpty || (pyStrip h).isEmpty then defaultDeviceName host else h
  let version :=
    match dictGet "modelVersion".toList data with
    | none => none
    | some mv => if mv.isEmpty then none else parse_version_info mv
  { name := name
    model := model
    sw_version := version
    manufacturer := "Creality".toList
    connections := [("ip".toList, host)] }

/-- The head of a dropWhile result never satisfies the dropped predicate. -/
theorem head?_dropWhile_false (p : Char → Bool) :
    ∀ (l : Str) (a : Char), (l.dropWhile p).head? = some a → p a = false := by
  intro l
  induction l with
  | nil => intro a h; simp at h
  | cons x xs ih =>
    intro a h
    by_cases hp : p x
    · rw [List.dropWhile_cons, if_pos hp] at h
      exact ih a h
    · rw [List.dropWhile_cons, if_neg hp] at h
      simp at h
      rw [← h]
      exact Bool.not_eq_true _ |>.mp hp

/-- Stripping preserves membership: every character of pyStrip s occurs in s. -/
theorem pyStrip_subset {c : Char} {s : Str} (h : c ∈ pyStrip s) : c ∈ s := by
  unfold pyStrip at h
  rw [List.mem_reverse] at h
  have h2 : c ∈ (s.dropWhile isPySpace).reverse :=
    (List.dropWhile_suffix isPySpace).sublist.subset h
  rw [List.mem_reverse] at h2
  exact (List.dropWhile_suffix isPySpace).sublist.subset h2

/-- The first character of a stripped string is not Python whitespace. -/
theorem pyStrip_head_not_space {s : Str} {c : Char}
    (h : (pyStrip s).head? = some c) : isPySpace c = false := by
  unfold pyStrip at h
  rw [List.head?_reverse] at h
  set a := s.dropWhile isPySpace with ha
  set b := a.reverse.dropWhile isPySpace with hb
  obtain ⟨t, ht⟩ := List.dropWhile_suffix (l := a.reverse) isPySpace
  have hbne : b ≠ [] := by
    intro hnil
    rw [hnil] at h
    simp at h
  have h3 : b.getLast? = a.reverse.getLast? := by
    rw [← ht]
    exact (List.getLast?_append_of_ne_nil t hbne).symm
  rw [h3, List.getLast?_reverse] at h
  exact head?_dropWhile_false isPySpace s c h

/-- The last character of a stripped string is not Python whitespace. -/
theorem pyStrip_getLast_not_space {s : Str} {c : Char}
    (h : (pyStrip s).getLast? = some c) : isPySpace c = false := by
  unfold pyStrip at h
  rw [List.getLast?_reverse] at h
  exact head?_dropWhile_false isPySpace _ c h

/-- The operational regex scan agrees with the declarative first-matching-suffix
characterization: reSearchKeyGroup returns the group extracted at the first
suffix where the key matches with a nonempty value run. -/
theorem reSearch_eq_find (key : Str) :
    ∀ s : Str, reSearchKeyGroup key s
      = (s.tails.find? (matchPred key)).map (extractGroup key) := by
  intro s
  induction s with
  | nil =>
    simp [reSearchKeyGroup, List.tails, List.find?, matchPred]
  | cons c rest ih =>
    rw [List.tails_cons]
    by_cases h : matchPred key (c :: rest)
    · have h' := h
      unfold matchPred at h'
      rw [List.find?_cons, h]
      unfold reSearchKeyGroup
      simp only [h', if_true]
      rfl
    · have h' : matchPred key (c :: rest) = false := by
        exact Bool.not_eq_true _ |>.mp h
      have h'' := h'
      unfold matchPred at h''
      rw [List.find?_cons, h']
      unfold reSearchKeyGroup
      simp only [h'', if_false]
      exact ih

/-- A group returned by the regex scan is a nonempty run of non-semicolon
characters. -/
theorem reSearch_group_shape {key s g : Str}
    (h : reSearchKeyGroup key s = some g) :
    (∀ c ∈ g, notSemi c = true) ∧ g ≠ [] := by
  rw [reSearch_eq_find] at h
  rcases hf : s.tails.find? (matchPred key) with _ | t
  · rw [hf] at h; simp at h
  · rw [hf] at h
    simp at h
    have hp := List.find?_some hf
    unfold matchPred at hp
    have hne : ¬((t.drop key.length).takeWhile notSemi).isEmpty := by
      intro hc
      rw [hc] at hp
      simp at hp
    constructor
    · intro c hc
      rw [← h] at hc
      exact List.mem_takeWhile_imp hc
    · intro hnil
      apply hne
      unfold extractGroup at h
      rw [h, hnil]
      rfl

/-- The DWIN fallback of parse_version_info equals the declarative keyed
version lookup for the DWIN pattern. -/
theorem parseDwinFallback_eq_keyed (s : Str) :
    parseDwinFallback s = keyedVersion dwinSwKey s := by
  unfold parseDwinFallback keyedVersion
  rw [reSearch_eq_find]
  rcases hf : s.tails.find? (matchPred dwinSwKey) with _ | t
  · rfl
  · simp only [Option.map_some]
    by_cases he : (pyStrip (extractGroup dwinSwKey t)).isEmpty
    · simp [he]
    · simp [he]

/-- Every successful result of parse_version_info is the strip of a nonempty
non-semicolon group. -/
theorem parse_version_from_group {s v : Str}
    (h : parse_version_info s = some v) :
    ∃ g : Str, v = pyStrip g ∧ (∀ c ∈ g, notSemi c = true) ∧ ¬(pyStrip g).isEmpty := by
  have fallback_case :
      ∀ v' : Str, parseDwinFallback s = some v' →
        ∃ g : Str, v' = pyStrip g ∧ (∀ c ∈ g, notSemi c = true) ∧ ¬(pyStrip g).isEmpty := by
    intro v' h'
    unfold parseDwinFallback at h'
    rcases hr : reSearchKeyGroup dwinSwKey s with _ | g
    · rw [hr] at h'; simp at h'
    · rw [hr] at h'
      by_cases he : (pyStrip g).isEmpty
      · simp [he] at h'
      · simp [he] at h'
        exact ⟨g, h'.symm, (reSearch_group_shape hr).1, he⟩
  unfold parse_version_info at h
  rcases hr : reSearchKeyGroup printerSwKey s with _ | g
  · rw [hr] at h
    exact fallback_case v h
  · rw [hr] at h
    by_cases he : (pyStrip g).isEmpty
    · simp [he] at h
      exact fallback_case v h
    · simp [he] at h
      exact ⟨g, h.symm, (reSearch_group_shape hr).1, he⟩

/-! ## Coordinator model (coordinator.py)

The state a receive-loop step can touch is the stored device info and the
identity-known event; handlers are the registered callbacks, modelled by
whether invoking them with a given parsed object raises.  A step returns the
new state, the trace of log/side-effect events, and whether the receive loop
reads the next frame or exits. -/

/-- The coordinator state touched by message processing: `_device_info` and
the `_device_info_received` event. -/
structure CoordState where
  device_info : Option DeviceInfoRec
  device_info_received : Bool
deriving DecidableEq, Repr

/-- A registered message handler, modelled by whether invoking it with a given
parsed object raises an exception. -/
structure Handler where
  raises : PyDict → Bool

/-- add_message_handler appends to the handler list, so registration order is
list order. -/
def add_message_handler (handlers : List Handler) (h : Handler) : List Handler :=
  handlers ++ [h]

/-- Observable effects of one receive-loop step: log lines, device
registration, and handler invocations (by registration index, with the parsed
object). -/
inductive Event where
  | logHeartbeatAck
  | logReceived (raw : Str)
  | logParsed
  | registerDevice (info : DeviceInfoRec)
  | handlerInvoked (idx : Nat) (data : PyDict)
  | logHandlerError (idx : Nat)
  | logInvalidJson (raw : Str)
  | logProcessingError
deriving DecidableEq, Repr

/-- Whether the receive loop goes on to read the next frame or exits (exiting
tears the connection down and falls through to reconnection). -/
inductive LoopOutcome where
  | toNextFrame
  | exitLoop
deriving DecidableEq, Repr

/-- The result of processing one received frame. -/
structure StepResult where
  state : CoordState
  events : List Event
  outcome : LoopOutcome
deriving DecidableEq, Repr

/-- Embedding of `_handle_device_info`: when the parsed object contains all of
"hostname", "model" and "modelVersion", store get_device_info, register the
device, and set the identity-known event; otherwise do nothing. -/
def handle_device_info (host : Str) (st : CoordState) (data : PyDict) :
    CoordState × List Event :=
  if (dictGet "hostname".toList data).isSome
      && (dictGet "model".toList data).isSome
      && (dictGet "modelVersion".toList data).isSome then
    let info := get_device_info data host
    ({ device_info := some info, device_info_received := true },
     [Event.registerDevice info])
  else (st, [])

/-- The handler fan-out loop over the remaining handlers, starting at
registration index `i`: each handler is invoked with the parsed object; an
exception from a handler is caught and logged, and iteration proceeds. -/
def notifyFrom (i : Nat) (handlers : List Handler) (data : PyDict) : List Event :=
  match handlers with
  | [] => []
  | h :: rest =>
    (if h.raises data then [Event.handlerInvoked i data, Event.logHandlerError i]
     else [Event.handlerInvoked i data]) ++ notifyFrom (i + 1) rest data

/-- Embedding of the `for handler in self._message_handlers` loop of
`_listen_for_messages` (coordinator.py lines 185-189). -/
def notify_handlers (handlers : List Handler) (data : PyDict) : List Event :=
  notifyFrom 0 handlers data

/-- The outcome of evaluating `json.loads(msg.data)` inside
`_listen_for_messages`: a parsed object, a json.JSONDecodeError, or a
NameError because the name `json` is not bound in the module. -/
inductive ParseOutcome where
  | ok (data : PyDict)
  | decodeError
  | nameError

/-- One received WebSocket frame, as aiohttp delivers it: a text frame, a
CLOSED frame, an ERROR frame, or any other frame type (binary, ping, ...),
for which the loop body has no branch. -/
inductive WSMsg where
  | text (data : Str)
  | closed
  | wserror
  | otherType

/-- The body of the `_listen_for_messages` while-loop for one received frame,
parameterized by the semantics of the `json.loads` line.  A text frame equal
to the literal "ok" is logged and skipped.  Otherwise the frame text is
parsed: on a parsed object the device-info handler runs and every registered
handler is invoked in registration order, handler exceptions being caught and
logged in place; on json.JSONDecodeError the frame is logged as invalid and
the loop continues; on any other exception (such as NameError) the outer
`except Exception` logs it and breaks out of the loop.  CLOSED and ERROR
frames break out of the loop; other frame types fall through the if-chain and
the loop continues. -/
def listenStepWith (parse : Str → ParseOutcome) (host : Str)
    (handlers : List Handler) (st : CoordState) (msg : WSMsg) : StepResult :=
  match msg with
  | WSMsg.text raw =>
    if raw = "ok".toList then
      { state := st, events := [Event.logHeartbeatAck], outcome := LoopOutcome.toNextFrame }
    else
      match parse raw with
      | ParseOutcome.ok data =>
        let res := handle_device_info host st data
        { state := res.1
          events := Event.logReceived raw :: Event.logParsed :: res.2
              ++ notify_handlers handlers data
          outcome := LoopOutcome.toNextFrame }
      | ParseOutcome.decodeError =>
        { state := st, events := [Event.logReceived raw, Event.logInvalidJson raw]
          outcome := LoopOutcome.toNextFrame }
      | ParseOutcome.nameError =>
        { state := st, events := [Event.logReceived raw, Event.logProcessingError]
          outcome := LoopOutcome.exitLoop }
  | WSMsg.closed => { state := st, events := [], outcome := LoopOutcome.exitLoop }
  | WSMsg.wserror => { state := st, events := [], outcome := LoopOutcome.exitLoop }
  | WSMsg.otherType => { state := st, events := [], outcome := LoopOutcome.toNextFrame }

/-- The import list of coordinator.py binds asyncio, logging, datetime,
timezone, Any, Callable, suppress, aiohttp, HomeAssistant, device_registry,
DOMAIN and get_device_info — but not json.  Evaluating `json.loads(msg.data)`
therefore raises NameError for every frame text (and the clause
`except json.JSONDecodeError` cannot catch it, since evaluating that clause
raises NameError as well). -/
def coordinatorJsonLoads (_raw : Str) : ParseOutcome := ParseOutcome.nameError

/-- The receive-loop step of coordinator.py as written, with the `json.loads`
line evaluated in the module's actual namespace. -/
def listen_step (host : Str) (handlers : List Handler) (st : CoordState)
    (msg : WSMsg) : StepResult :=
  listenStepWith coordinatorJsonLoads host handlers st msg

/-- A live WebSocket connection as send_message sees it, modelled by whether
the underlying `send_json` write raises for a given message. -/
structure WSConn where
  send_fails : PyDict → Bool

/-- Observable effects of send_message. -/
inductive SendEvent where
  | logNoConnection
  | wroteJson (message : PyDict)
  | logSendFailed (message : PyDict)
deriving Repr

/-- Embedding of `NebulaPadCoordinator.send_message`: with no connection the
failure is logged and the call returns; with a connection the message is
serialized and written, and a write error is caught and logged.  The returned
Bool records whether an exception propagates to the caller. -/
def send_message (st : CoordState) (ws : Option WSConn) (message : PyDict) :
    CoordState × List SendEvent × Bool :=
  match ws with
  | none => (st, [SendEvent.logNoConnection], false)
  | some conn =>
    if conn.send_fails message then (st, [SendEvent.logSendFailed message], false)
    else (st, [SendEvent.wroteJson message], false)

/-! ## Outbound commands (button.py, number.py) -/

/-- JSON values, as far as the outbound commands need them. -/
inductive JValue where
  | s (v : Str)
  | n (v : Int)
  | obj (fields : List (Str × JValue))

/-- The attribute names an instance of NebulaPadCoordinator carries: the
fields assigned in `__init__`, the `device_info` property, and the methods of
the class.  There is no attribute named `websocket`. -/
def coordinatorAttributes : List Str :=
  ["hass", "entry_id", "_host", "_port", "_reconnect_interval", "_ws",
   "_session", "_shutdown", "_connection_task", "_heartbeat_task",
   "_connect_lock", "_message_handlers", "_device_info",
   "_device_info_received", "device_info", "wait_for_device_info",
   "add_message_handler", "remove_message_handler", "send_message",
   "start", "stop", "_handle_device_info", "_maintain_connection",
   "_connect_and_listen", "_listen_for_messages", "_send_heartbeats"].map
    String.toList

/-- How a button press or number write gets its command to the device:
through the coordinator's send_message, by writing a socket object directly,
or not at all because an AttributeError is raised while looking up a
nonexistent coordinator attribute. -/
inductive OutboundAction where
  | viaSendMessage (cmd : JValue)
  | directSocketSend (attr : Str) (cmd : JValue)
  | attrLookupError (attr : Str)

/-- The command built by PausePrintButton.async_press. -/
def pauseCommand : JValue :=
  JValue.obj [("method".toList, JValue.s "set".toList),
              ("params".toList, JValue.obj [("pause".toList, JValue.n 1)])]

/-- The command built by ResumePrintButton.async_press. -/
def resumeCommand : JValue :=
  JValue.obj [("method".toList, JValue.s "set".toList),
              ("params".toList, JValue.obj [("pause".toList, JValue.n 0)])]

/-- The command built by StopPrintButton.async_press. -/
def stopCommand : JValue :=
  JValue.obj [("method".toList, JValue.s "set".toList),
              ("params".toList, JValue.obj [("stop".toList, JValue.n 1)])]

/-- The command built by AutoHomeXYButton.async_press. -/
def autohomeXYCommand : JValue :=
  JValue.obj [("method".toList, JValue.s "set".toList),
              ("params".toList, JValue.obj [("autohome".toList, JValue.s "X Y".toList)])]

/-- The command built by AutoHomeZButton.async_press. -/
def autohomeZCommand : JValue :=
  JValue.obj [("method".toList, JValue.s "set".toList),
              ("params".toList, JValue.obj [("autohome".toList, JValue.s "Z".toList)])]

/-- The command built by NebulaPadTargetNozzleTemp.async_set_native_value for
the integer `int(value)`. -/
def nozzleTempCommand (value : Int) : JValue :=
  JValue.obj [("method".toList, JValue.s "set".toList),
              ("params".toList, JValue.obj [("nozzleTempControl".toList, JValue.n value)])]

/-- The command built by NebulaPadTargetBedTemp.async_set_native_value for the
integer `int(value)`: the bed target parameter is nested as num/val. -/
def bedTempCommand (value : Int) : JValue :=
  JValue.obj [("method".toList, JValue.s "set".toList),
              ("params".toList,
               JValue.obj [("bedTempControl".toList,
                            JValue.obj [("num".toList, JValue.n 0),
                                        ("val".toList, JValue.n value)])])]

/-- Each button's async_press awaits `self.coordinator.send_message(command)`. -/
def buttonPress (cmd : JValue) : OutboundAction := OutboundAction.viaSendMessage cmd

/-- NebulaPadTargetBedTemp.async_set_native_value as written: it first
evaluates `self.coordinator.websocket`; the coordinator has no such attribute,
so the lookup raises AttributeError before anything is sent.  Were the
attribute present, the code would write the serialized command to that socket
object directly, bypassing send_message. -/
def bedTempSetNativeValue (value : Int) : OutboundAction :=
  if "websocket".toList ∈ coordinatorAttributes then
    OutboundAction.directSocketSend "websocket".toList (bedTempCommand value)
  else OutboundAction.attrLookupError "websocket".toList

/-- NebulaPadTargetNozzleTemp.async_set_native_value as written; same access
pattern as the bed-temperature entity. -/
def nozzleTempSetNativeValue (value : Int) : OutboundAction :=
  if "websocket".toList ∈ coordinatorAttributes then
    OutboundAction.directSocketSend "websocket".toList (nozzleTempCommand value)
  else OutboundAction.attrLookupError "websocket".toList

/-- A JSON object of the shape `{"method": "set", "params": {...}}`. -/
def isSetCommand : JValue → Bool
  | JValue.obj [(k1, JValue.s v1), (k2, JValue.obj _)] =>
    k1 = "method".toList && v1 = "set".toList && k2 = "params".toList
  | _ => false

/-! ## Fixtures -/

/-- The empty start state: no device info, identity-known event not set. -/
def initState : CoordState := { device_info := none, device_info_received := false }

/-- A handler whose invocation never raises. -/
def benignHandler : Handler := { raises := fun _ => false }

/-- A handler whose invocation always raises. -/
def raisingHandler : Handler := { raises := fun _ => true }

/-- A frame text that is a well-formed JSON object carrying the identity keys. -/
def jsonFrame : Str :=
  "\x7b\"hostname\": \"np\", \"model\": \"K2\", \"modelVersion\": \"v\"\x7d".toList

/-- A frame text that is neither the literal "ok" nor valid JSON. -/
def malformedFrame : Str := "hello world".toList

/-- The identity object of the spec's worked example, with a blank hostname. -/
def exampleIdentityData : PyDict :=
  [("hostname".toList, "".toList), ("model".toList, "K2".toList),
   ("modelVersion".toList, "printer sw ver:1.2.3;DWIN sw ver:V9;".toList)]

/-! ## Handler fan-out lemmas -/

/-- Every handler-invocation event emitted by the fan-out starting at index k
carries an index at least k. -/
theorem notifyFrom_mem_idx {data d : PyDict} :
    ∀ (hs : List Handler) (k i : Nat),
      Event.handlerInvoked i d ∈ notifyFrom k hs data → k ≤ i := by
  intro hs
  induction hs with
  | nil => intro k i h; simp [notifyFrom] at h
  | cons hd rest ih =>
    intro k i h
    unfold notifyFrom at h
    rw [List.mem_append] at h
    rcases h with h | h
    · by_cases hr : hd.raises data
      · rw [if_pos hr] at h
        simp at h
        rcases h with ⟨hk, _⟩ | _
        · omega
      · rw [if_neg hr] at h
        simp at h
        omega
    · have := ih (k + 1) i h
      omega

/-- In the fan-out starting at index k, the handler at offset j is invoked
exactly once with the parsed object. -/
theorem notifyFrom_count (data : PyDict) :
    ∀ (hs : List Handler) (k j : Nat), j < hs.length →
      (notifyFrom k hs data).count (Event.handlerInvoked (k + j) data) = 1 := by
  intro hs
  induction hs with
  | nil => intro k j hj; simp at hj
  | cons hd rest ih =>
    intro k j hj
    unfold notifyFrom
    rw [List.count_append]
    cases j with
    | zero =>
      have hnot : Event.handlerInvoked (k + 0) data ∉ notifyFrom (k + 1) rest data := by
        intro hmem
        have := notifyFrom_mem_idx rest (k + 1) (k + 0) hmem
        omega
      rw [List.count_eq_zero_of_not_mem hnot]
      by_cases hr : hd.raises data
      · rw [if_pos hr]
        simp [List.count_cons]
      · rw [if_neg hr]
        simp [List.count_cons]
    | succ j' =>
      have hne : Event.handlerInvoked k data ≠ Event.handlerInvoked (k + (j' + 1)) data := by
        intro hc
        injection hc with h1 _
        omega
      have hfirst :
          (if hd.raises data then [Event.handlerInvoked k data, Event.logHandlerError k]
           else [Event.handlerInvoked k data]).count (Event.handlerInvoked (k + (j' + 1)) data)
            = 0 := by
        by_cases hr : hd.raises data
        · rw [if_pos hr]
          simp [List.count_cons, hne]
        · rw [if_neg hr]
          simp [List.count_cons, hne]
      rw [hfirst]
      have hlen : j' < rest.length := by
        simp at hj
        omega
      have := ih (k + 1) j' hlen
      have harith : k + 1 + j' = k + (j' + 1) := by omega
      rw [harith] at this
      rw [this]

/-- The events of the device-info step are at most a single device
registration: never a handler invocation. -/
theorem handle_device_info_no_invocation (host : Str) (st : CoordState)
    (data : PyDict) :
    ∀ i d, Event.handlerInvoked i d ∉ (handle_device_info host st data).2 := by
  intro i d hmem
  unfold handle_device_info at hmem
  by_cases hc : ((dictGet "hostname".toList data).isSome
      && (dictGet "model".toList data).isSome
      && (dictGet "modelVersion".toList data).isSome) = true
  · rw [if_pos hc] at hmem
    simp at hmem
  · rw [if_neg hc] at hmem
    simp at hmem

/-! ## Claims about the receive loop -/

/-- Claim C1 (evaluation of the code at a failing input): coordinator.py
never imports the json module, so for a text frame that is a well-formed JSON
object the `json.loads` line raises NameError; the outer `except Exception`
logs it and breaks out of the receive loop.  The registered handler is never
invoked, the state is unchanged, and the loop exits instead of reading the
next frame. -/
theorem claim1_json_frame_never_dispatched :
    listen_step "192.168.1.5".toList [benignHandler] initState (WSMsg.text jsonFrame)
      = { state := initState
          events := [Event.logReceived jsonFrame, Event.logProcessingError]
          outcome := LoopOutcome.exitLoop } := by decide

/-- Claim C2: whenever the `json.loads` line yields a parsed object and some
registered handler raises on it, the loop body still invokes every registered
handler exactly once with that object and the receive loop goes on to the
next frame on the same connection. -/
theorem claim2_handler_exception_isolated
    (parse : Str → ParseOutcome) (raw : Str) (data : PyDict)
    (handlers : List Handler) (host : Str) (st : CoordState)
    (i : Nat) (hi : i < handlers.length)
    (hraises : (handlers.get ⟨i, hi⟩).raises data = true)
    (hok : raw ≠ "ok".toList)
    (hparse : parse raw = ParseOutcome.ok data) :
    (listenStepWith parse host handlers st (WSMsg.text raw)).outcome
        = LoopOutcome.toNextFrame
    ∧ ∀ j, j < handlers.length →
        ((listenStepWith parse host handlers st (WSMsg.text raw)).events).count
          (Event.handlerInvoked j data) = 1 := by
  have hstep : listenStepWith parse host handlers st (WSMsg.text raw)
      = { state := (handle_device_info host st data).1
          events := Event.logReceived raw :: Event.logParsed ::
              (handle_device_info host st data).2 ++ notify_handlers handlers data
          outcome := LoopOutcome.toNextFrame } := by
    simp only [listenStepWith]
    rw [if_neg hok, hparse]
  rw [hstep]
  refine ⟨rfl, ?_⟩
  intro j hj
  simp only [List.count_cons, List.count_append]
  have h1 : (Event.logReceived raw = Event.handlerInvoked j data) = False := by
    simp
  have h2 : (Event.logParsed = Event.handlerInvoked j data) = False := by
    simp
  have h3 : ((handle_device_info host st data).2).count (Event.handlerInvoked j data) = 0 :=
    List.count_eq_zero_of_not_mem (handle_device_info_no_invocation host st data j data)
  have h4 : (notify_handlers handlers data).count (Event.handlerInvoked j data) = 1 := by
    have := notifyFrom_count data handlers 0 j hj
    simpa [notify_handlers] using this
  simp [h3, h4]

/-- Witness for claim C2 at a concrete raising handler and parsed object. -/
theorem claim2_witness :
    (listenStepWith (fun _ => ParseOutcome.ok []) "h".toList [raisingHandler]
        initState (WSMsg.text "x".toList)).outcome = LoopOutcome.toNextFrame
    ∧ ∀ j, j < ([raisingHandler] : List Handler).length →
        ((listenStepWith (fun _ => ParseOutcome.ok []) "h".toList [raisingHandler]
            initState (WSMsg.text "x".toList)).events).count
          (Event.handlerInvoked j []) = 1 :=
  claim2_handler_exception_isolated (fun _ => ParseOutcome.ok []) "x".toList []
    [raisingHandler] "h".toList initState 0 (by decide) rfl (by decide) rfl

/-- Claim C3 (evaluation of the code at a failing input): for a text frame
that is neither "ok" nor JSON, the missing json import means the failure is
not caught by the `except json.JSONDecodeError` clause; the outer handler
logs a processing error and breaks out of the receive loop, so the connection
is torn down and reconnection follows, instead of continuing on the same
connection. -/
theorem claim3_malformed_frame_breaks_loop :
    listen_step "192.168.1.5".toList [benignHandler] initState
        (WSMsg.text malformedFrame)
      = { state := initState
          events := [Event.logReceived malformedFrame, Event.logProcessingError]
          outcome := LoopOutcome.exitLoop } := by decide

/-- Claim C4: a frame whose text is exactly the literal "ok" is discarded as
a heartbeat acknowledgement: the state (hence the stored device identity and
the identity-known event) is unchanged, no handler is invoked, and the loop
reads the next frame. -/
theorem claim4_ok_heartbeat_discarded (host : Str) (handlers : List Handler)
    (st : CoordState) :
    listen_step host handlers st (WSMsg.text "ok".toList)
      = { state := st, events := [Event.logHeartbeatAck]
          outcome := LoopOutcome.toNextFrame } := rfl

/-- Claim C5: send_message with no WebSocket connection logs and returns
without raising, sending, queueing, or changing state; with a connection
whose write fails, the failure is logged and no exception propagates. -/
theorem claim5_send_message_safe :
    (∀ (st : CoordState) (message : PyDict),
      send_message st none message = (st, [SendEvent.logNoConnection], false))
    ∧ (∀ (st : CoordState) (conn : WSConn) (message : PyDict),
        conn.send_fails message = true →
        send_message st (some conn) message
          = (st, [SendEvent.logSendFailed message], false)) := by
  constructor
  · intro st message
    rfl
  · intro st conn message h
    simp only [send_message]
    rw [if_pos h]

/-- Witness for claim C5 at a concrete disconnected call and failing write. -/
theorem claim5_witness :
    send_message initState none [] = (initState, [SendEvent.logNoConnection], false)
    ∧ send_message initState (some { send_fails := fun _ => true }) []
      = (initState, [SendEvent.logSendFailed []], false) :=
  ⟨claim5_send_message_safe.1 initState [],
   claim5_send_message_safe.2 initState { send_fails := fun _ => true } [] rfl⟩

/-- Claim C8: processing a parsed object updates the stored device identity,
registers the device, and sets the identity-known event exactly when the
object contains all three identity keys; otherwise state and effects are
untouched. -/
theorem claim8_identity_update_iff (host : Str) (st : CoordState) (data : PyDict) :
    (((dictGet "hostname".toList data).isSome
        && (dictGet "model".toList data).isSome
        && (dictGet "modelVersion".toList data).isSome) = true →
      handle_device_info host st data
        = ({ device_info := some (get_device_info data host)
             device_info_received := true },
           [Event.registerDevice (get_device_info data host)]))
    ∧ (((dictGet "hostname".toList data).isSome
        && (dictGet "model".toList data).isSome
        && (dictGet "modelVersion".toList data).isSome) = false →
      handle_device_info host st data = (st, [])) := by
  constructor
  · intro h
    unfold handle_device_info
    rw [if_pos h]
  · intro h
    have h' : ¬(((dictGet "hostname".toList data).isSome
        && (dictGet "model".toList data).isSome
        && (dictGet "modelVersion".toList data).isSome) = true) := by
      rw [h]
      simp
    unfold handle_device_info
    rw [if_neg h']

/-- Witness for claim C8: the full identity object updates the state; an
object missing the hostname key leaves it untouched. -/
theorem claim8_witness :
    handle_device_info "192.168.1.5".toList initState exampleIdentityData
      = ({ device_info := some (get_device_info exampleIdentityData "192.168.1.5".toList)
           device_info_received := true },
         [Event.registerDevice (get_device_info exampleIdentityData "192.168.1.5".toList)])
    ∧ handle_device_info "192.168.1.5".toList initState [("model".toList, "K2".toList)]
      = (initState, []) :=
  ⟨(claim8_identity_update_iff "192.168.1.5".toList initState exampleIdentityData).1
      (by decide),
   (claim8_identity_update_iff "192.168.1.5".toList initState
      [("model".toList, "K2".toList)]).2 (by decide)⟩

/-- Claim C9 (evaluation of the code at a failing input): every command built
by the buttons and the temperature setters has the set/params shape, and the
bed target is nested as num/val; the buttons deliver through send_message,
but both temperature setters evaluate `self.coordinator.websocket`, an
attribute the coordinator does not define, so setting a target temperature
raises AttributeError and never delivers through the coordinator's send
interface. -/
theorem claim9_outbound_commands :
    buttonPress pauseCommand = OutboundAction.viaSendMessage pauseCommand
    ∧ buttonPress resumeCommand = OutboundAction.viaSendMessage resumeCommand
    ∧ buttonPress stopCommand = OutboundAction.viaSendMessage stopCommand
    ∧ buttonPress autohomeXYCommand = OutboundAction.viaSendMessage autohomeXYCommand
    ∧ buttonPress autohomeZCommand = OutboundAction.viaSendMessage autohomeZCommand
    ∧ isSetCommand pauseCommand = true
    ∧ isSetCommand resumeCommand = true
    ∧ isSetCommand stopCommand = true
    ∧ isSetCommand autohomeXYCommand = true
    ∧ isSetCommand autohomeZCommand = true
    ∧ isSetCommand (bedTempCommand 60) = true
    ∧ isSetCommand (nozzleTempCommand 60) = true
    ∧ bedTempCommand 60
      = JValue.obj [("method".toList, JValue.s "set".toList),
                    ("params".toList,
                     JValue.obj [("bedTempControl".toList,
                                  JValue.obj [("num".toList, JValue.n 0),
                                              ("val".toList, JValue.n 60)])])]
    ∧ bedTempSetNativeValue 60 = OutboundAction.attrLookupError "websocket".toList
    ∧ nozzleTempSetNativeValue 60 = OutboundAction.attrLookupError "websocket".toList := by
  refine ⟨rfl, rfl, rfl, rfl, rfl, ?_, ?_, ?_, ?_, ?_, ?_, ?_, rfl, ?_, ?_⟩
  · decide
  · decide
  · decide
  · decide
  · decide
  · decide
  · decide
  · rfl
  · rfl

/-! ## Claims about version and identity extraction -/

/-- Claim C6: parse_version_info returns the trimmed value at the first
printer-software-version occurrence when that value is non-blank, otherwise
falls back to the DWIN-software-version value, otherwise returns no version;
in particular the two worked examples of the spec hold. -/
theorem claim6_version_priority :
    parse_version_info "printer sw ver:1.2.3;DWIN sw ver:V9;".toList
        = some "1.2.3".toList
    ∧ parse_version_info "DWIN sw ver:V9;".toList = some "V9".toList
    ∧ (∀ s : Str, (keyedVersion printerSwKey s).isSome →
        parse_version_info s = keyedVersion printerSwKey s)
    ∧ (∀ s : Str, keyedVersion printerSwKey s = none →
        parse_version_info s = keyedVersion dwinSwKey s) := by
  refine ⟨by decide, by decide, ?_, ?_⟩
  · intro s hs
    have hr := reSearch_eq_find printerSwKey s
    rcases hf : s.tails.find? (matchPred printerSwKey) with _ | t
    · rw [hf] at hr
      simp only [keyedVersion, hf] at hs
      simp at hs
    · rw [hf] at hr
      simp only [Option.map_some'] at hr
      simp only [keyedVersion, hf] at hs ⊢
      by_cases he : (pyStrip (extractGroup printerSwKey t)).isEmpty = true
      · rw [if_pos he] at hs
        simp at hs
      · have he' : (pyStrip (extractGroup printerSwKey t)).isEmpty = false :=
          Bool.not_eq_true _ |>.mp he
        rw [if_neg (by rw [he']; simp)]
        simp only [parse_version_info, hr]
        rw [he']
        simp
  · intro s h0
    have hr := reSearch_eq_find printerSwKey s
    rcases hf : s.tails.find? (matchPred printerSwKey) with _ | t
    · rw [hf] at hr
      simp only [parse_version_info, hr]
      exact parseDwinFallback_eq_keyed s
    · rw [hf] at hr
      simp only [Option.map_some'] at hr
      simp only [keyedVersion, hf] at h0
      by_cases he : (pyStrip (extractGroup printerSwKey t)).isEmpty = true
      · simp only [parse_version_info, hr]
        rw [he]
        simp only [Bool.not_true, Bool.false_eq_true, if_false]
        exact parseDwinFallback_eq_keyed s
      · have he' : (pyStrip (extractGroup printerSwKey t)).isEmpty = false :=
          Bool.not_eq_true _ |>.mp he
        rw [if_neg (by rw [he']; simp)] at h0
        simp at h0

/-- Witness for claim C6: a blank primary value falls back, and an input with
no primary occurrence is resolved by the DWIN pattern lookup. -/
theorem claim6_witness :
    parse_version_info "printer sw ver:1.2.3;".toList
        = keyedVersion printerSwKey "printer sw ver:1.2.3;".toList
    ∧ parse_version_info "model K2".toList
        = keyedVersion dwinSwKey "model K2".toList :=
  ⟨claim6_version_priority.2.2.1 "printer sw ver:1.2.3;".toList (by decide),
   claim6_version_priority.2.2.2 "model K2".toList (by decide)⟩

/-- Claim C7: the derived device name is the reported hostname when present
and non-blank after trimming, and "Nebula Pad <host>" when the hostname key
is missing or its value is blank; the manufacturer is always the constant
"Creality"; and the spec's worked example with an empty hostname derives
"Nebula Pad 192.168.1.5". -/
theorem claim7_device_name :
    (∀ (data : PyDict) (host : Str),
      (get_device_info data host).manufacturer = "Creality".toList)
    ∧ (∀ (data : PyDict) (host h : Str),
        dictGet "hostname".toList data = some h → pyStrip h ≠ [] →
        (get_device_info data host).name = h)
    ∧ (∀ (data : PyDict) (host : Str),
        dictGet "hostname".toList data = none →
        (get_device_info data host).name = "Nebula Pad ".toList ++ host)
    ∧ (∀ (data : PyDict) (host h : Str),
        dictGet "hostname".toList data = some h → pyStrip h = [] →
        (get_device_info data host).name = "Nebula Pad ".toList ++ host)
    ∧ (get_device_info exampleIdentityData "192.168.1.5".toList).name
        = "Nebula Pad 192.168.1.5".toList
    ∧ (get_device_info exampleIdentityData "192.168.1.5".toList).sw_version
        = some "1.2.3".toList := by
  refine ⟨?_, ?_, ?_, ?_, by decide, by decide⟩
  · intro data host
    rfl
  · intro data host h hget hne
    have hnil : h ≠ [] := by
      intro hc
      apply hne
      rw [hc]
      rfl
    have h1 : h.isEmpty = false := by
      cases h with
      | nil => exact absurd rfl hnil
      | cons a t => rfl
    have h2 : (pyStrip h).isEmpty = false := by
      cases hps : pyStrip h with
      | nil => exact absurd hps hne
      | cons a t => rfl
    unfold get_device_info
    rw [hget]
    simp [h1, h2]
  · intro data host hget
    unfold get_device_info
    rw [hget]
    simp [defaultDeviceName]
  · intro data host h hget hblank
    have h2 : (pyStrip h).isEmpty = true := by
      rw [hblank]
      rfl
    unfold get_device_info
    rw [hget]
    simp [h2, defaultDeviceName]

/-- Witness for claim C7: a non-blank hostname is kept; a missing hostname
key and a whitespace-only hostname both default to "Nebula Pad <host>". -/
theorem claim7_witness :
    (get_device_info [("hostname".toList, "MyPrinter".toList)] "10.0.0.2".toList).name
        = "MyPrinter".toList
    ∧ (get_device_info ([] : PyDict) "10.0.0.2".toList).name
        = "Nebula Pad ".toList ++ "10.0.0.2".toList
    ∧ (get_device_info [("hostname".toList, "   ".toList)] "10.0.0.2".toList).name
        = "Nebula Pad ".toList ++ "10.0.0.2".toList :=
  ⟨claim7_device_name.2.1 [("hostname".toList, "MyPrinter".toList)] "10.0.0.2".toList
      "MyPrinter".toList (by decide) (by decide),
   claim7_device_name.2.2.1 ([] : PyDict) "10.0.0.2".toList rfl,
   claim7_device_name.2.2.2.1 [("hostname".toList, "   ".toList)] "10.0.0.2".toList
      "   ".toList (by decide) (by decide)⟩

/-- Claim C10: any version string parse_version_info returns is non-empty,
contains no semicolon, and has neither a leading nor a trailing whitespace
character. -/
theorem claim10_version_shape (s v : Str)
    (h : parse_version_info s = some v) :
    v ≠ [] ∧ (∀ c ∈ v, c ≠ ';')
    ∧ (∀ c, v.head? = some c → isPySpace c = false)
    ∧ (∀ c, v.getLast? = some c → isPySpace c = false) := by
  obtain ⟨g, hg, hsemi, hne⟩ := parse_version_from_group h
  subst hg
  refine ⟨?_, ?_, ?_, ?_⟩
  · intro hc
    apply hne
    rw [hc]
    rfl
  · intro c hc hceq
    have hmem := hsemi c (pyStrip_subset hc)
    unfold notSemi at hmem
    rw [hceq] at hmem
    simp at hmem
  · intro c hc
    exact pyStrip_head_not_space hc
  · intro c hc
    exact pyStrip_getLast_not_space hc

/-- Witness for claim C10 at a padded primary version value. -/
theorem claim10_witness :
    "1.2.3".toList ≠ [] ∧ (∀ c ∈ "1.2.3".toList, c ≠ ';')
    ∧ (∀ c, ("1.2.3".toList).head? = some c → isPySpace c = false)
    ∧ (∀ c, ("1.2.3".toList).getLast? = some c → isPySpace c = false) :=
  claim10_version_shape "printer sw ver: 1.2.3 ;x".toList "1.2.3".toList (by decide)

end NebulaPad
